import Mathlib

/-!
Verification of the sentiment-analysis service (two front-ends).

The repository holds two Python files:
- `api.py`: a FastAPI endpoint `POST /analyze` that validates a JSON body
  `{"text": <string>}` and returns `{"feedback", "sentiment", "score"}`;
- `feedback-classifier-gradio/app.py`: a Gradio form whose handler returns a
  two-line formatted string.

Both delegate classification to a HuggingFace `pipeline('sentiment-analysis')`
object, embedded here as an explicit function parameter `Classifier` that
returns either a list of `(label, score)` dicts or a raised exception.
Floating-point scores are embedded as rationals.
-/

/-- One element of the list returned by the HuggingFace sentiment pipeline: a
dict carrying a `label` string and a `score` float (embedded as a rational). -/
structure SentimentResult where
  label : String
  score : ℚ
  deriving DecidableEq

/-- Python exceptions the handlers can propagate: an arbitrary exception raised
inside the pipeline call, or the `IndexError` raised by `[0]` on an empty
list. -/
inductive PyExn where
  | pipelineExn (msg : String)
  | indexError
  deriving DecidableEq

/-- The loaded `classifier` pipeline object, shared by all requests of one
process: raw text to a list of results, or a raised exception. -/
def Classifier : Type := String → Except PyExn (List SentimentResult)

/-- A process environment: variable name to optional value. -/
def Env : Type := String → Option String

/-- Embedding of `os.environ["PYTORCH_CUDA_ALLOC_CONF"] = ""`, the one
environment write performed (identically) by both front-ends at startup. -/
def setCudaAllocConf (env : Env) : Env :=
  fun k => if k = "PYTORCH_CUDA_ALLOC_CONF" then some "" else env k

namespace Api

/-- Embedding of `class Feedback(BaseModel): text: str` from `api.py`. -/
structure Feedback where
  text : String
  deriving DecidableEq

/-- The JSON dict built by the `/analyze` handler in `api.py`:
`{"feedback": ..., "sentiment": ..., "score": ...}`. -/
structure ApiResponse where
  feedback : String
  sentiment : String
  score : ℚ
  deriving DecidableEq

/-- Embedding of the `/analyze` handler body (`api.py` lines 17-20):
`result = classifier(feedback.text)[0]` followed by
`return {"feedback": feedback.text, "sentiment": result['label'],
"score": result['score']}`. A pipeline exception propagates; `[0]` on an
empty list raises `IndexError`. -/
def analyze_feedback (classifier : Classifier) (feedback : Feedback) :
    Except PyExn ApiResponse :=
  match classifier feedback.text with
  | .error e => .error e
  | .ok [] => .error .indexError
  | .ok (r :: _) => .ok ⟨feedback.text, r.label, r.score⟩

end Api

/-- A JSON value, used to embed the request body seen by the HTTP layer. -/
inductive Json where
  | null
  | bool (b : Bool)
  | num (q : ℚ)
  | str (s : String)
  | arr (elems : List Json)
  | obj (fields : List (String × Json))

/-- First value bound to `key` in a JSON object's field list. -/
def Json.lookupField (fields : List (String × Json)) (key : String) :
    Option Json :=
  match fields with
  | [] => none
  | (k, v) :: rest => if k = key then some v else Json.lookupField rest key

/-- Ways a `POST /analyze` body can fail request validation. -/
inductive ValidationError where
  | malformedJson
  | bodyNotAnObject
  | missingTextField
  | textNotAString
  deriving DecidableEq

namespace Api

/-- Modelled from the spec: the request-validation step performed by the
FastAPI/pydantic framework against the repository's `Feedback` model
(`text: str`) — the framework itself is not part of this repository's source.
Per the spec, malformed JSON or a missing/non-string `text` field fails with
a request-validation error; a JSON body whose `text` field is any string
(including the empty string) is accepted. The body is `none` when the raw
request body is not parseable JSON at all. -/
def decodeFeedback (body : Option Json) : Except ValidationError Feedback :=
  match body with
  | none => .error .malformedJson
  | some (.obj fields) =>
    match Json.lookupField fields "text" with
    | some (.str s) => .ok ⟨s⟩
    | some _ => .error .textNotAString
    | none => .error .missingTextField
  | some _ => .error .bodyNotAnObject

/-- An HTTP response of the `/analyze` route: 200 with the handler's dict, or
a 422-class request-validation error produced before the handler runs. -/
inductive HttpResponse where
  | success (body : ApiResponse)
  | validationError (e : ValidationError)
  deriving DecidableEq

/-- The `/analyze` route end to end: framework validation (modelled from the
spec) followed by the `analyze_feedback` handler. A validation failure yields
the 422-class response without invoking the handler; an exception raised by
the handler propagates uncaught. -/
def analyzeEndpoint (classifier : Classifier) (body : Option Json) :
    Except PyExn HttpResponse :=
  match decodeFeedback body with
  | .error e => .ok (.validationError e)
  | .ok fb =>
    match analyze_feedback classifier fb with
    | .error e => .error e
    | .ok resp => .ok (.success resp)

/-- One request served by the API process: the startup environment write
(`api.py` line 5) together with the route's result. The handler code never
reads the environment. -/
def process (env : Env) (classifier : Classifier) (body : Option Json) :
    Env × Except PyExn HttpResponse :=
  (setCudaAllocConf env, analyzeEndpoint classifier body)

end Api

namespace Gradio

/-- Embedding of Python's `str.capitalize()`: first character uppercased, all
following characters lowercased (labels are ASCII). -/
def pyCapitalize (s : String) : String :=
  match s.data with
  | [] => ""
  | c :: rest => String.mk (c.toUpper :: rest.map Char.toLower)

/-- Nearest integer to the fraction `m / d`, ties to even — the rounding used
by Python's fixed-point formatting. The fraction need not be in lowest
terms. -/
def roundHalfEven (m : ℤ) (d : ℕ) : ℤ :=
  let f : ℤ := m.fdiv d
  let r : ℤ := m - f * d
  if 2 * r < (d : ℤ) then f
  else if (d : ℤ) < 2 * r then f + 1
  else if f % 2 = 0 then f else f + 1

/-- Left-pad a digit string with zeros to four characters. -/
def padZeros4 (s : String) : String :=
  String.mk (List.replicate (4 - s.length) '0') ++ s

/-- Embedding of the format specifier `{score:.4f}`: fixed-point rendering
with exactly four digits after the decimal point. The scaled value
`q * 10000` is the exact fraction `(q.num * 10000) / q.den`. -/
def formatFixed4 (q : ℚ) : String :=
  let n : ℤ := roundHalfEven (q.num * 10000) q.den
  let sign : String := if n < 0 then "-" else ""
  let m : ℕ := n.natAbs
  sign ++ Nat.repr (m / 10000) ++ "." ++ padZeros4 (Nat.repr (m % 10000))

/-- Embedding of the Gradio prediction function (`app.py` lines 10-14):
`result = classifier(feedback)[0]`, then the two-line formatted string
`"Sentiment: " + result['label'].capitalize() + "\nConfidence: " +
format(result['score'], '.4f')`. A pipeline exception propagates; `[0]` on an
empty list raises `IndexError`. -/
def analyze_feedback (classifier : Classifier) (feedback : String) :
    Except PyExn String :=
  match classifier feedback with
  | .error e => .error e
  | .ok [] => .error .indexError
  | .ok (r :: _) =>
    .ok ("Sentiment: " ++ pyCapitalize r.label ++ "\nConfidence: " ++
      formatFixed4 r.score)

/-- One submission served by the form process: the startup environment write
(`app.py` line 4) together with the prediction function's result. The handler
code never reads the environment. -/
def process (env : Env) (classifier : Classifier) (feedback : String) :
    Env × Except PyExn String :=
  (setCudaAllocConf env, analyze_feedback classifier feedback)

end Gradio

/-- C1: for every request whose body carries a string field `text`, the
`feedback` field of a successful `/analyze` response equals the submitted
text verbatim — the handler performs no transformation of the input text. -/
theorem c1_feedback_roundtrip (classifier : Classifier) (fb : Api.Feedback)
    (resp : Api.ApiResponse)
    (h : Api.analyze_feedback classifier fb = .ok resp) :
    resp.feedback = fb.text := by
  unfold Api.analyze_feedback at h
  cases hc : classifier fb.text with
  | error e => rw [hc] at h; cases h
  | ok l =>
    cases l with
    | nil => rw [hc] at h; cases h
    | cons r rest => rw [hc] at h; cases h; rfl

/-- C1 witness: a concrete classifier and request exercising the round-trip. -/
theorem c1_feedback_roundtrip_witness :
    (Api.ApiResponse.mk "great product" "POSITIVE" ((9:ℚ)/10)).feedback =
      "great product" :=
  c1_feedback_roundtrip (fun _ => .ok [⟨"POSITIVE", (9:ℚ)/10⟩])
    ⟨"great product"⟩ ⟨"great product", "POSITIVE", (9:ℚ)/10⟩ rfl

/-- C2: for every non-empty input whose pipeline result carries a label in
\x7bPOSITIVE, NEGATIVE\x7d and a score in [0,1], the `/analyze` handler succeeds
with a `sentiment` field equal to one of the two fixed labels and a `score`
field in [0,1]. -/
theorem c2_label_score_range (classifier : Classifier) (text : String)
    (r : SentimentResult) (rest : List SentimentResult)
    (hres : classifier text = .ok (r :: rest))
    (hlabel : r.label = "POSITIVE" ∨ r.label = "NEGATIVE")
    (hlo : 0 ≤ r.score) (hhi : r.score ≤ 1) (_hne : text ≠ "") :
    ∃ resp, Api.analyze_feedback classifier ⟨text⟩ = .ok resp ∧
      (resp.sentiment = "POSITIVE" ∨ resp.sentiment = "NEGATIVE") ∧
      0 ≤ resp.score ∧ resp.score ≤ 1 := by
  refine ⟨⟨text, r.label, r.score⟩, ?_, hlabel, hlo, hhi⟩
  unfold Api.analyze_feedback
  rw [hres]

/-- C2 witness: concrete classifier, text, label and score meeting all the
hypotheses. -/
theorem c2_label_score_range_witness :
    ∃ resp,
      Api.analyze_feedback (fun _ => .ok [⟨"POSITIVE", mkRat 97 100⟩])
          ⟨"I love this product!"⟩ = .ok resp ∧
      (resp.sentiment = "POSITIVE" ∨ resp.sentiment = "NEGATIVE") ∧
      0 ≤ resp.score ∧ resp.score ≤ 1 :=
  c2_label_score_range (fun _ => .ok [⟨"POSITIVE", mkRat 97 100⟩])
    "I love this product!" ⟨"POSITIVE", mkRat 97 100⟩ [] rfl (Or.inl rfl)
    (by norm_num [Rat.mkRat_eq_div]) (by norm_num [Rat.mkRat_eq_div])
    (by decide)

/-- C3: whenever the pipeline yields a first result, the form's output is
exactly the two-line string `"Sentiment: "` + capitalized label + newline +
`"Confidence: "` + the score to four decimal places; in particular, the
capitalization of `NEGATIVE` is `Negative` and `0.9876` formats to
`"0.9876"`, giving exactly `"Sentiment: Negative\nConfidence: 0.9876"`. -/
theorem c3_form_output_format (classifier : Classifier) (feedback : String)
    (r : SentimentResult) (rest : List SentimentResult)
    (h : classifier feedback = .ok (r :: rest)) :
    Gradio.analyze_feedback classifier feedback =
      .ok ("Sentiment: " ++ Gradio.pyCapitalize r.label ++
        "\nConfidence: " ++ Gradio.formatFixed4 r.score) ∧
    "Sentiment: " ++ Gradio.pyCapitalize "NEGATIVE" ++ "\nConfidence: " ++
        Gradio.formatFixed4 (mkRat 9876 10000) =
      "Sentiment: Negative\nConfidence: 0.9876" := by
  constructor
  · unfold Gradio.analyze_feedback
    rw [h]
  · decide

/-- C3 witness: a concrete classifier returning label `NEGATIVE` with score
`0.9876` produces exactly the specified two-line string. -/
theorem c3_form_output_format_witness :
    Gradio.analyze_feedback (fun _ => .ok [⟨"NEGATIVE", mkRat 9876 10000⟩])
        "meh" =
      .ok "Sentiment: Negative\nConfidence: 0.9876" := by
  have h := c3_form_output_format
    (fun _ => .ok [⟨"NEGATIVE", mkRat 9876 10000⟩]) "meh"
    ⟨"NEGATIVE", mkRat 9876 10000⟩ [] rfl
  rw [h.1]
  exact congrArg Except.ok h.2

/-- C4: a body that is malformed JSON, lacks the `text` field, or whose
`text` is not a string yields the 422-class validation response; the server
does not crash (no exception escapes) and the pipeline is never invoked (the
response is independent of the classifier). -/
theorem c4_validation_error (classifier : Classifier) (body : Option Json)
    (e : ValidationError) (h : Api.decodeFeedback body = .error e) :
    Api.analyzeEndpoint classifier body = .ok (.validationError e) ∧
    ∀ classifier2 : Classifier,
      Api.analyzeEndpoint classifier body =
        Api.analyzeEndpoint classifier2 body := by
  constructor
  · unfold Api.analyzeEndpoint
    rw [h]
  · intro classifier2
    unfold Api.analyzeEndpoint
    rw [h]

/-- C4 witness: an empty JSON object (no `text` field) against a concrete
classifier. -/
theorem c4_validation_error_witness :
    Api.analyzeEndpoint (fun _ => .ok [⟨"POSITIVE", mkRat 1 2⟩])
        (some (.obj [])) =
      .ok (.validationError .missingTextField) :=
  (c4_validation_error (fun _ => .ok [⟨"POSITIVE", mkRat 1 2⟩])
    (some (.obj [])) .missingTextField rfl).1

/-- C5: against one fixed loaded model instance (the classifier as a
deterministic function), two calls with identical input text return identical
results from both the HTTP handler and the form handler. -/
theorem c5_idempotent (classifier : Classifier) (t1 t2 : String)
    (h : t1 = t2) :
    Api.analyze_feedback classifier ⟨t1⟩ =
      Api.analyze_feedback classifier ⟨t2⟩ ∧
    Gradio.analyze_feedback classifier t1 =
      Gradio.analyze_feedback classifier t2 := by
  subst h
  exact ⟨rfl, rfl⟩

/-- C5 witness: two calls with the same concrete text. -/
theorem c5_idempotent_witness :
    Api.analyze_feedback (fun _ => .ok [⟨"POSITIVE", mkRat 1 2⟩]) ⟨"same"⟩ =
      Api.analyze_feedback (fun _ => .ok [⟨"POSITIVE", mkRat 1 2⟩]) ⟨"same"⟩ ∧
    Gradio.analyze_feedback (fun _ => .ok [⟨"POSITIVE", mkRat 1 2⟩]) "same" =
      Gradio.analyze_feedback (fun _ => .ok [⟨"POSITIVE", mkRat 1 2⟩]) "same" :=
  c5_idempotent (fun _ => .ok [⟨"POSITIVE", mkRat 1 2⟩]) "same" "same" rfl

/-- C6: for the same input text and the same pipeline result, the two
front-ends agree: the form's displayed sentiment is the API's `sentiment`
label capitalized, and the form's displayed confidence is the API's `score`
formatted to four decimal places. -/
theorem c6_frontends_agree (classifier : Classifier) (text : String)
    (r : SentimentResult) (rest : List SentimentResult)
    (h : classifier text = .ok (r :: rest)) :
    ∃ resp out,
      Api.analyze_feedback classifier ⟨text⟩ = .ok resp ∧
      Gradio.analyze_feedback classifier text = .ok out ∧
      out = "Sentiment: " ++ Gradio.pyCapitalize resp.sentiment ++
        "\nConfidence: " ++ Gradio.formatFixed4 resp.score := by
  refine ⟨⟨text, r.label, r.score⟩,
    "Sentiment: " ++ Gradio.pyCapitalize r.label ++ "\nConfidence: " ++
      Gradio.formatFixed4 r.score, ?_, ?_, rfl⟩
  · unfold Api.analyze_feedback
    rw [h]
  · unfold Gradio.analyze_feedback
    rw [h]

/-- C6 witness: both front-ends on a concrete text and classifier. -/
theorem c6_frontends_agree_witness :
    ∃ resp out,
      Api.analyze_feedback (fun _ => .ok [⟨"NEGATIVE", mkRat 9876 10000⟩])
          ⟨"This is terrible."⟩ = .ok resp ∧
      Gradio.analyze_feedback (fun _ => .ok [⟨"NEGATIVE", mkRat 9876 10000⟩])
          "This is terrible." = .ok out ∧
      out = "Sentiment: " ++ Gradio.pyCapitalize resp.sentiment ++
        "\nConfidence: " ++ Gradio.formatFixed4 resp.score :=
  c6_frontends_agree (fun _ => .ok [⟨"NEGATIVE", mkRat 9876 10000⟩])
    "This is terrible." ⟨"NEGATIVE", mkRat 9876 10000⟩ [] rfl

/-- C7: at startup each front-end writes `PYTORCH_CUDA_ALLOC_CONF`
unconditionally — the written value is the empty string regardless of any
prior value, no other variable is touched, and the caller's prior environment
never changes the observable result of either front-end. -/
theorem c7_env_set_noop (env env1 env2 : Env) (classifier : Classifier)
    (body : Option Json) (feedback : String) :
    setCudaAllocConf env "PYTORCH_CUDA_ALLOC_CONF" = some "" ∧
    (∀ k, k ≠ "PYTORCH_CUDA_ALLOC_CONF" → setCudaAllocConf env k = env k) ∧
    (Api.process env1 classifier body).2 =
      (Api.process env2 classifier body).2 ∧
    (Gradio.process env1 classifier feedback).2 =
      (Gradio.process env2 classifier feedback).2 := by
  refine ⟨?_, ?_, rfl, rfl⟩
  · unfold setCudaAllocConf
    simp
  · intro k hk
    unfold setCudaAllocConf
    simp [hk]

/-- C7 witness: a concrete prior environment, with the no-op checked at a
distinct variable and the env-independence at two differing environments. -/
theorem c7_env_set_noop_witness :
    setCudaAllocConf (fun _ => some "old") "PYTORCH_CUDA_ALLOC_CONF" =
      some "" ∧
    setCudaAllocConf (fun _ => some "old") "PATH" =
      (fun _ => some "old" : Env) "PATH" ∧
    (Api.process (fun _ => some "old")
        (fun _ => .ok [⟨"POSITIVE", mkRat 1 2⟩]) (some (.obj []))).2 =
      (Api.process (fun _ => none)
        (fun _ => .ok [⟨"POSITIVE", mkRat 1 2⟩]) (some (.obj []))).2 := by
  have h := c7_env_set_noop (fun _ => some "old") (fun _ => some "old")
    (fun _ => none) (fun _ => .ok [⟨"POSITIVE", mkRat 1 2⟩])
    (some (.obj [])) "x"
  exact ⟨h.1, h.2.1 "PATH" (by decide), h.2.2.1⟩

/-- C8: an exception raised inside the pipeline call propagates uncaught out
of both handlers — the very same exception, with no recovery, retry or
fallback classification, and no response value produced. -/
theorem c8_exception_propagates (classifier : Classifier) (text : String)
    (e : PyExn) (h : classifier text = .error e) :
    Api.analyze_feedback classifier ⟨text⟩ = .error e ∧
    Gradio.analyze_feedback classifier text = .error e := by
  constructor
  · unfold Api.analyze_feedback
    rw [h]
  · unfold Gradio.analyze_feedback
    rw [h]

/-- C8 witness: a concrete always-raising classifier. -/
theorem c8_exception_propagates_witness :
    Api.analyze_feedback (fun _ => .error (.pipelineExn "CUDA OOM")) ⟨"x"⟩ =
      .error (.pipelineExn "CUDA OOM") ∧
    Gradio.analyze_feedback (fun _ => .error (.pipelineExn "CUDA OOM")) "x" =
      .error (.pipelineExn "CUDA OOM") :=
  c8_exception_propagates (fun _ => .error (.pipelineExn "CUDA OOM")) "x"
    (.pipelineExn "CUDA OOM") rfl

/-- C9: the empty string is accepted at both interfaces: the body
`\x7b"text": ""\x7d` passes validation, the endpoint forwards `""` to the
pipeline unmodified, and the form handler likewise invokes the pipeline on
`""` — neither performs an emptiness check. -/
theorem c9_empty_string_accepted (classifier : Classifier)
    (r : SentimentResult) (rest : List SentimentResult)
    (h : classifier "" = .ok (r :: rest)) :
    Api.decodeFeedback (some (.obj [("text", .str "")])) =
      .ok ⟨""⟩ ∧
    Api.analyzeEndpoint classifier (some (.obj [("text", .str "")])) =
      .ok (.success ⟨"", r.label, r.score⟩) ∧
    Gradio.analyze_feedback classifier "" =
      .ok ("Sentiment: " ++ Gradio.pyCapitalize r.label ++
        "\nConfidence: " ++ Gradio.formatFixed4 r.score) := by
  refine ⟨rfl, ?_, ?_⟩
  · simp [Api.analyzeEndpoint, Api.decodeFeedback, Json.lookupField,
      Api.analyze_feedback, h]
  · unfold Gradio.analyze_feedback
    rw [h]

/-- C9 witness: a concrete classifier applied to the empty string through
both interfaces. -/
theorem c9_empty_string_accepted_witness :
    Api.decodeFeedback (some (.obj [("text", .str "")])) = .ok ⟨""⟩ ∧
    Api.analyzeEndpoint (fun _ => .ok [⟨"POSITIVE", mkRat 3 5⟩])
        (some (.obj [("text", .str "")])) =
      .ok (.success ⟨"", "POSITIVE", mkRat 3 5⟩) ∧
    Gradio.analyze_feedback (fun _ => .ok [⟨"POSITIVE", mkRat 3 5⟩]) "" =
      .ok ("Sentiment: " ++ Gradio.pyCapitalize "POSITIVE" ++
        "\nConfidence: " ++ Gradio.formatFixed4 (mkRat 3 5)) :=
  c9_empty_string_accepted (fun _ => .ok [⟨"POSITIVE", mkRat 3 5⟩])
    ⟨"POSITIVE", mkRat 3 5⟩ [] rfl

/-- C10: both handlers take the pipeline result's element 0 without a guard:
an empty result list raises `IndexError` in each; a successful response
exists only when the result list is non-empty; and when it is, exactly the
first element determines the response and the rest is discarded. -/
theorem c10_index_zero_unguarded (classifier : Classifier) (text : String) :
    (classifier text = .ok [] →
      Api.analyze_feedback classifier ⟨text⟩ = .error .indexError ∧
      Gradio.analyze_feedback classifier text = .error .indexError) ∧
    (∀ r rest, classifier text = .ok (r :: rest) →
      Api.analyze_feedback classifier ⟨text⟩ =
        .ok ⟨text, r.label, r.score⟩ ∧
      Gradio.analyze_feedback classifier text =
        .ok ("Sentiment: " ++ Gradio.pyCapitalize r.label ++
          "\nConfidence: " ++ Gradio.formatFixed4 r.score)) ∧
    (∀ resp, Api.analyze_feedback classifier ⟨text⟩ = .ok resp →
      ∃ r rest, classifier text = .ok (r :: rest)) := by
  refine ⟨?_, ?_, ?_⟩
  · intro h
    constructor
    · unfold Api.analyze_feedback
      rw [h]
    · unfold Gradio.analyze_feedback
      rw [h]
  · intro r rest h
    constructor
    · unfold Api.analyze_feedback
      rw [h]
    · unfold Gradio.analyze_feedback
      rw [h]
  · intro resp h
    unfold Api.analyze_feedback at h
    cases hc : classifier text with
    | error e => rw [hc] at h; cases h
    | ok l =>
      cases l with
      | nil => rw [hc] at h; cases h
      | cons r rest => exact ⟨r, rest, rfl⟩

/-- C10 witness: a classifier returning the empty list makes both handlers
raise `IndexError` on a concrete input. -/
theorem c10_index_zero_unguarded_witness :
    Api.analyze_feedback (fun _ => .ok []) ⟨"x"⟩ = .error .indexError ∧
    Gradio.analyze_feedback (fun _ => .ok []) "x" = .error .indexError :=
  (c10_index_zero_unguarded (fun _ => .ok []) "x").1 rfl
